import Mathlib

/-!
Verification of the HTTP gateway bootstrap of the Billing Invoicer backend
(server/server.js). The file is a shallow embedding of the Express
application wiring: configuration loading, middleware registration order,
the health/ping endpoints, the four mounted route groups, the catch-all
404 handler and the terminal error handler. Route modules and the error
handler body live outside the repository excerpt and are modelled as
opaque outcomes (`delegated` / `errorHandled`).

Modelling conventions:
- Requests carry method, URL path (query strings are not modelled, so
  `originalUrl` is the path), the Origin header, the Content-Type header
  and the body size in bytes.
- The cors middleware is modelled by its header-setting behaviour
  (reflecting the request origin, per the allow-all origin callback);
  the library short-circuit response for OPTIONS preflights is outside
  the model.
- `Date.toISOString` is modelled for timestamps in the four-digit-year
  range (the range the serialized format `YYYY-MM-DDTHH:MM:SS.mmmZ`
  covers); each printed digit is taken mod 10.
- String helpers (lower-casing, digit parsing) are defined over the
  character list of the string so that they evaluate by `decide`.
-/

namespace BillingServer

/-- The decimal digit character for `n % 10`. -/
def digitChar (n : Nat) : Char :=
  match n % 10 with
  | 0 => '0' | 1 => '1' | 2 => '2' | 3 => '3' | 4 => '4'
  | 5 => '5' | 6 => '6' | 7 => '7' | 8 => '8' | _ => '9'

/-- Is `c` an ASCII decimal digit? -/
def isDigitChar (c : Char) : Bool := 48 ≤ c.toNat && c.toNat ≤ 57

/-- ASCII lower-casing of one character. -/
def lowerCh (c : Char) : Char :=
  if 65 ≤ c.toNat && c.toNat ≤ 90 then Char.ofNat (c.toNat + 32) else c

/-- ASCII lower-casing of a string. -/
def lowerStr (s : String) : String := String.mk (s.data.map lowerCh)

/-- Accumulating decimal parse of a digit list. -/
def natFromDigits : List Char → Nat → Option Nat
  | [], acc => some acc
  | c :: rest, acc =>
      if isDigitChar c then natFromDigits rest (acc * 10 + (c.toNat - 48)) else none

/-- Decimal parse of a string: `some n` exactly for nonempty all-digit strings. -/
def strToNat (s : String) : Option Nat :=
  match s.data with
  | [] => none
  | cs => natFromDigits cs 0

/-- A calendar timestamp, the components `Date.toISOString` prints. -/
structure DateTime where
  year : Nat
  month : Nat
  day : Nat
  hour : Nat
  minute : Nat
  second : Nat
  millis : Nat
deriving DecidableEq

/-- Two-digit zero-padded decimal rendering. -/
def pad2 (n : Nat) : String := String.mk [digitChar (n / 10), digitChar n]

/-- Three-digit zero-padded decimal rendering. -/
def pad3 (n : Nat) : String :=
  String.mk [digitChar (n / 100), digitChar (n / 10), digitChar n]

/-- Four-digit zero-padded decimal rendering. -/
def pad4 (n : Nat) : String :=
  String.mk [digitChar (n / 1000), digitChar (n / 100), digitChar (n / 10), digitChar n]

/-- Model of JavaScript `new Date(...).toISOString()`:
the 24-character form `YYYY-MM-DDTHH:MM:SS.mmmZ`. -/
def toISOString (d : DateTime) : String :=
  pad4 d.year ++ "-" ++ pad2 d.month ++ "-" ++ pad2 d.day ++ "T" ++
  pad2 d.hour ++ ":" ++ pad2 d.minute ++ ":" ++ pad2 d.second ++ "." ++
  pad3 d.millis ++ "Z"

/-- An independent syntactic check that a string is a parseable ISO-8601
timestamp in the `YYYY-MM-DDTHH:MM:SS.mmmZ` form: 24 characters, digits
and the fixed punctuation at the fixed positions. -/
def isISO8601 (s : String) : Bool :=
  match s.data with
  | [y1, y2, y3, y4, p1, m1, m2, p2, d1, d2, p3, h1, h2, p4,
     n1, n2, p5, c1, c2, p6, f1, f2, f3, p7] =>
      isDigitChar y1 && isDigitChar y2 && isDigitChar y3 && isDigitChar y4 &&
      (p1 == '-') && isDigitChar m1 && isDigitChar m2 && (p2 == '-') &&
      isDigitChar d1 && isDigitChar d2 && (p3 == 'T') &&
      isDigitChar h1 && isDigitChar h2 && (p4 == ':') &&
      isDigitChar n1 && isDigitChar n2 && (p5 == ':') &&
      isDigitChar c1 && isDigitChar c2 && (p6 == '.') &&
      isDigitChar f1 && isDigitChar f2 && isDigitChar f3 && (p7 == 'Z')
  | _ => false

/-- Process configuration read from the environment at startup
(`process.env.NODE_ENV`, `process.env.PORT`). -/
structure Config where
  nodeEnv : Option String
  portEnv : Option String
deriving DecidableEq

/-- An inbound HTTP request as this layer observes it. -/
structure Request where
  method : String
  originalUrl : String
  origin : Option String
  contentType : Option String
  contentLength : Nat
deriving DecidableEq

/-- A response body: the JSON objects this file emits (flat string-valued
objects, fields in insertion order) or plain text (`res.send`). -/
inductive ResBody where
  | jsonBody (fields : List (String × String))
  | textBody (s : String)
deriving DecidableEq

/-- Errors this layer itself raises and forwards to the terminal error
handler. -/
inductive AppError where
  | payloadTooLarge
deriving DecidableEq

/-- How a request leaves this layer: answered directly, handed to one of
the four opaque mounted route modules, or handed to the opaque terminal
error-handling middleware. -/
inductive Handled where
  | response (status : Nat) (body : ResBody)
  | delegated (routeModule : String)
  | errorHandled (e : AppError)
deriving DecidableEq

/-- Log output of the middleware chain: the morgan access log line and the
development-only diagnostic line printing method, path and origin. -/
inductive LogEntry where
  | access (method url : String)
  | devDiag (method url : String) (origin : Option String)
deriving DecidableEq

/-- What handling one request produces: the routing outcome, the response
headers already set by the middleware chain, and the log entries. -/
structure HandleResult where
  handled : Handled
  headers : List (String × String)
  log : List LogEntry
deriving DecidableEq

/-- Content-security-policy directive lists (server.js lines 36-44). -/
structure CspDirectives where
  defaultSrc : List String
  styleSrc : List String
  imgSrc : List String
  scriptSrc : List String
  connectSrc : List String
deriving DecidableEq

/-- The helmet configuration object passed to `helmet(...)`. -/
structure HelmetConfig where
  contentSecurityPolicy : Option CspDirectives
  crossOriginEmbedderPolicy : Bool
deriving DecidableEq

/-- The environment-dependent helmet configuration (server.js lines 34-50):
production gets the explicit CSP directives, non-production the relaxed
call `helmet({ crossOriginEmbedderPolicy: false })`. -/
def helmetConfig (nodeEnv : Option String) : HelmetConfig :=
  if nodeEnv = some "production" then
    { contentSecurityPolicy := some
        { defaultSrc := ["\x27self\x27"]
          styleSrc := ["\x27self\x27", "\x27unsafe-inline\x27"]
          imgSrc := ["\x27self\x27", "data:", "https:"]
          scriptSrc := ["\x27self\x27"]
          connectSrc := ["\x27self\x27"] }
      crossOriginEmbedderPolicy := false }
  else
    { contentSecurityPolicy := none
      crossOriginEmbedderPolicy := false }

/-- Render the CSP directives into the Content-Security-Policy header
value. -/
def renderCsp (d : CspDirectives) : String :=
  "default-src " ++ String.intercalate " " d.defaultSrc ++
  "; style-src " ++ String.intercalate " " d.styleSrc ++
  "; img-src " ++ String.intercalate " " d.imgSrc ++
  "; script-src " ++ String.intercalate " " d.scriptSrc ++
  "; connect-src " ++ String.intercalate " " d.connectSrc

/-- Security headers set by the helmet middleware: the CSP header when
directives are configured, plus baseline headers. -/
def helmetHeaders (nodeEnv : Option String) : List (String × String) :=
  (match (helmetConfig nodeEnv).contentSecurityPolicy with
   | some d => [("Content-Security-Policy", renderCsp d)]
   | none => []) ++
  [("X-Content-Type-Options", "nosniff")]

/-- Headers set by the cors middleware (server.js lines 22-28, 52): the
origin callback allows every origin, so the request origin is reflected;
credentials are allowed. -/
def corsHeaders (req : Request) : List (String × String) :=
  (match req.origin with
   | some o => [("Access-Control-Allow-Origin", o), ("Vary", "Origin")]
   | none => []) ++
  [("Access-Control-Allow-Credentials", "true")]

/-- The JSON body parser size limit: `express.json({ limit: '10mb' })`,
10 mebibytes. -/
def jsonLimit : Nat := 10485760

/-- The URL-encoded body parser size limit:
`express.urlencoded({ extended: true, limit: '10mb' })`. -/
def urlencodedLimit : Nat := 10485760

/-- Does one of the two body parsers reject the request for exceeding its
limit? Each parser only consumes bodies of its own content type. -/
def parserRejects (req : Request) : Bool :=
  (req.contentType == some "application/json" &&
    decide (jsonLimit < req.contentLength)) ||
  (req.contentType == some "application/x-www-form-urlencoded" &&
    decide (urlencodedLimit < req.contentLength))

/-- Express route-path matching for a fixed path such as `/health`:
case-insensitive, an optional trailing slash. -/
def routeMatches (routePath url : String) : Bool :=
  lowerStr url == routePath || lowerStr url == routePath ++ "/"

/-- Express mount-prefix matching for `app.use(pre, router)`: the prefix
itself or the prefix followed by a slash, case-insensitive. -/
def mountMatches (pre url : String) : Bool :=
  lowerStr url == pre || (pre ++ "/").data.isPrefixOf (lowerStr url).data

/-- Body of the `/health` response (server.js lines 65-71). -/
def healthBody (now : DateTime) : List (String × String) :=
  [("status", "OK"),
   ("message", "Billing Invoicer API is running"),
   ("timestamp", toISOString now)]

/-- Body of the `/api/health` response (server.js lines 73-79). -/
def apiHealthBody (now : DateTime) : List (String × String) :=
  [("status", "OK"),
   ("message", "Billing Invoicer API (api path) is running"),
   ("timestamp", toISOString now)]

/-- Body of the catch-all 404 response (server.js lines 91-96). -/
def notFoundBody (req : Request) : List (String × String) :=
  [("error", "Route not found"),
   ("message", "The endpoint " ++ req.originalUrl ++ " does not exist")]

/-- Route dispatch in registration order (server.js lines 64-96): the two
health endpoints and `/ping` (GET only), the four mounted route groups,
then the catch-all 404 handler. -/
def routeDispatch (now : DateTime) (req : Request) : Handled :=
  if (req.method == "GET") && routeMatches "/health" req.originalUrl then
    .response 200 (.jsonBody (healthBody now))
  else if (req.method == "GET") && routeMatches "/api/health" req.originalUrl then
    .response 200 (.jsonBody (apiHealthBody now))
  else if (req.method == "GET") && routeMatches "/ping" req.originalUrl then
    .response 200 (.textBody "pong")
  else if mountMatches "/api/auth" req.originalUrl then
    .delegated "authRoutes"
  else if mountMatches "/api/products" req.originalUrl then
    .delegated "productRoutes"
  else if mountMatches "/api/invoices" req.originalUrl then
    .delegated "invoiceRoutes"
  else if mountMatches "/api/shop" req.originalUrl then
    .delegated "shopRoutes"
  else
    .response 404 (.jsonBody (notFoundBody req))

/-- One request through the whole middleware chain, in registration order:
helmet and cors set their headers on every response, morgan logs every
request, the diagnostic logger logs outside production, the body parsers
reject oversized bodies to the error handler before any route runs, and
otherwise route dispatch decides the outcome. -/
def handle (cfg : Config) (now : DateTime) (req : Request) : HandleResult :=
  { handled :=
      if parserRejects req then .errorHandled .payloadTooLarge
      else routeDispatch now req
    headers := helmetHeaders cfg.nodeEnv ++ corsHeaders req
    log :=
      [.access req.method req.originalUrl] ++
      (if cfg.nodeEnv = some "production" then []
       else [.devDiag req.method req.originalUrl req.origin]) }

/-- The middleware/handler registration sequence of server.js lines 34-99,
by name, in source order. -/
def registrationOrder (nodeEnv : Option String) : List String :=
  ["helmet", "morgan", "cors"] ++
  (if nodeEnv = some "production" then [] else ["devLogger"]) ++
  ["jsonParser", "urlencodedParser", "healthRoute", "apiHealthRoute",
   "pingRoute", "authRoutes", "productRoutes", "invoiceRoutes",
   "shopRoutes", "notFoundHandler", "errorHandler"]

/-- The JavaScript expression `process.env.PORT || 5000` (server.js line
15): the raw string when PORT is set and nonempty (a JS truthy string),
the number 5000 otherwise. -/
def jsPortValue (portEnv : Option String) : String ⊕ Nat :=
  match portEnv with
  | some s => if s = "" then Sum.inr 5000 else Sum.inl s
  | none => Sum.inr 5000

/-- The port the listener binds, given the PORT environment variable:
`app.listen(PORT)` with the runtime interpreting a numeric string port as
its integer value (`none` for a non-numeric string, which no TCP port
interpretation covers). -/
def listenPort (portEnv : Option String) : Option Nat :=
  match jsPortValue portEnv with
  | Sum.inr n => some n
  | Sum.inl s => strToNat s

/-- Is the diagnostic request logger installed (server.js lines 55-60)? -/
def devLoggerInstalled (nodeEnv : Option String) : Bool :=
  !(nodeEnv == some "production")

/-- One rendered JSON field, `"key":"value"`. -/
def renderField (kv : String × String) : String :=
  "\"" ++ kv.1 ++ "\":\"" ++ kv.2 ++ "\""

/-- Comma-joined rendered fields. -/
def renderFields : List (String × String) → String
  | [] => ""
  | [kv] => renderField kv
  | kv :: rest => renderField kv ++ "," ++ renderFields rest

/-- `JSON.stringify` of a flat string-valued object, fields in insertion
order (none of the emitted strings needs escaping). -/
def renderJsonObj (fields : List (String × String)) : String :=
  "\x7b" ++ renderFields fields ++ "\x7d"

/-- `a` is registered strictly before `b` in the handler list `l`. -/
def isBefore (l : List String) (a b : String) : Prop :=
  a ∈ l ∧ b ∈ l ∧ l.indexOf a < l.indexOf b

instance (l : List String) (a b : String) : Decidable (isBefore l a b) := by
  unfold isBefore; infer_instance

/-- The middleware ordering the spec requires of the registration
sequence: security headers, then access log, then CORS, then (outside
production) the diagnostic logger, then body parsing, then route
dispatch, then the 404 handler, then the error handler. -/
def middlewareOrderOk (e : Option String) : Prop :=
  isBefore (registrationOrder e) "helmet" "morgan" ∧
  isBefore (registrationOrder e) "morgan" "cors" ∧
  isBefore (registrationOrder e) "cors" "jsonParser" ∧
  isBefore (registrationOrder e) "jsonParser" "urlencodedParser" ∧
  isBefore (registrationOrder e) "urlencodedParser" "healthRoute" ∧
  isBefore (registrationOrder e) "healthRoute" "notFoundHandler" ∧
  isBefore (registrationOrder e) "notFoundHandler" "errorHandler" ∧
  (e ≠ some "production" →
    isBefore (registrationOrder e) "cors" "devLogger" ∧
    isBefore (registrationOrder e) "devLogger" "jsonParser")

theorem isDigitChar_digitChar (n : Nat) : isDigitChar (digitChar n) = true := by
  have h : n % 10 < 10 := Nat.mod_lt _ (by norm_num)
  unfold digitChar
  generalize hm : n % 10 = m at *
  interval_cases m <;> decide

theorem data_toISOString (d : DateTime) :
    (toISOString d).data =
      [digitChar (d.year / 1000), digitChar (d.year / 100), digitChar (d.year / 10),
       digitChar d.year, '-', digitChar (d.month / 10), digitChar d.month, '-',
       digitChar (d.day / 10), digitChar d.day, 'T', digitChar (d.hour / 10),
       digitChar d.hour, ':', digitChar (d.minute / 10), digitChar d.minute, ':',
       digitChar (d.second / 10), digitChar d.second, '.', digitChar (d.millis / 100),
       digitChar (d.millis / 10), digitChar d.millis, 'Z'] := rfl

theorem isISO8601_toISOString (d : DateTime) : isISO8601 (toISOString d) = true := by
  unfold isISO8601
  rw [data_toISOString]
  simp [isDigitChar_digitChar]

theorem handle_health_handled (cfg : Config) (now : DateTime) (req : Request)
    (hm : req.method = "GET") (hu : req.originalUrl = "/health")
    (hb : parserRejects req = false) :
    (handle cfg now req).handled = .response 200 (.jsonBody (healthBody now)) := by
  have hc : routeMatches "/health" req.originalUrl = true := by rw [hu]; decide
  simp [handle, hb, routeDispatch, hm, hc]

theorem handle_apiHealth_handled (cfg : Config) (now : DateTime) (req : Request)
    (hm : req.method = "GET") (hu : req.originalUrl = "/api/health")
    (hb : parserRejects req = false) :
    (handle cfg now req).handled = .response 200 (.jsonBody (apiHealthBody now)) := by
  have hc0 : routeMatches "/health" req.originalUrl = false := by rw [hu]; decide
  have hc : routeMatches "/api/health" req.originalUrl = true := by rw [hu]; decide
  simp [handle, hb, routeDispatch, hm, hc0, hc]

/-- Claim C1: a GET request to `/health` (whose body the parsers accept)
returns status 200 with a JSON body whose status field is "OK", whose
message field is exactly "Billing Invoicer API is running", and whose
timestamp field is a parseable ISO-8601 timestamp. -/
theorem health_endpoint_ok (cfg : Config) (now : DateTime) (req : Request)
    (hm : req.method = "GET") (hu : req.originalUrl = "/health")
    (hb : parserRejects req = false) :
    (handle cfg now req).handled =
      .response 200 (.jsonBody
        [("status", "OK"),
         ("message", "Billing Invoicer API is running"),
         ("timestamp", toISOString now)]) ∧
    isISO8601 (toISOString now) = true :=
  ⟨(handle_health_handled cfg now req hm hu hb).trans rfl, isISO8601_toISOString now⟩

/-- Witness for C1 at a concrete request. -/
theorem health_endpoint_ok_witness :
    (handle ⟨some "development", none⟩ ⟨2025, 1, 2, 3, 4, 5, 6⟩
        ⟨"GET", "/health", some "http://localhost:3000", none, 0⟩).handled =
      .response 200 (.jsonBody
        [("status", "OK"),
         ("message", "Billing Invoicer API is running"),
         ("timestamp", toISOString ⟨2025, 1, 2, 3, 4, 5, 6⟩)]) ∧
    isISO8601 (toISOString ⟨2025, 1, 2, 3, 4, 5, 6⟩) = true :=
  health_endpoint_ok _ _ _ rfl rfl (by decide)

/-- Claim C2 counterexample: a request with an over-limit JSON body to an
unmatched path is handed to the terminal error handler by the body
parser, which runs before route dispatch, so it does not produce the 404
response the claim promises for every request to an unmatched path. -/
theorem notfound_claim_counterexample :
    (handle ⟨none, none⟩ ⟨2025, 1, 1, 0, 0, 0, 0⟩
        ⟨"POST", "/no-such-route", none, some "application/json", 10485761⟩).handled =
      .errorHandled .payloadTooLarge ∧
    (handle ⟨none, none⟩ ⟨2025, 1, 1, 0, 0, 0, 0⟩
        ⟨"POST", "/no-such-route", none, some "application/json", 10485761⟩).handled ≠
      .response 404 (.jsonBody
        [("error", "Route not found"),
         ("message", "The endpoint /no-such-route does not exist")]) := by
  constructor
  · rfl
  · decide

/-- Claim C2 (amended): for every request whose body the parsers accept
and whose path matches none of `/health`, `/api/health`, `/ping`, or the
four mounted prefixes, the response has status 404 with error field
"Route not found" and a message containing the requested path verbatim,
produced directly without invoking the terminal error handler. -/
theorem notfound_404 (cfg : Config) (now : DateTime) (req : Request)
    (hb : parserRejects req = false)
    (h1 : routeMatches "/health" req.originalUrl = false)
    (h2 : routeMatches "/api/health" req.originalUrl = false)
    (h3 : routeMatches "/ping" req.originalUrl = false)
    (h4 : mountMatches "/api/auth" req.originalUrl = false)
    (h5 : mountMatches "/api/products" req.originalUrl = false)
    (h6 : mountMatches "/api/invoices" req.originalUrl = false)
    (h7 : mountMatches "/api/shop" req.originalUrl = false) :
    (handle cfg now req).handled =
      .response 404 (.jsonBody
        [("error", "Route not found"),
         ("message", "The endpoint " ++ req.originalUrl ++ " does not exist")]) := by
  simp [handle, hb, routeDispatch, h1, h2, h3, h4, h5, h6, h7, notFoundBody]

/-- Witness for the amended C2 at a concrete request. -/
theorem notfound_404_witness :
    (handle ⟨none, none⟩ ⟨2025, 1, 1, 0, 0, 0, 0⟩
        ⟨"GET", "/no-such-route", none, none, 0⟩).handled =
      .response 404 (.jsonBody
        [("error", "Route not found"),
         ("message", "The endpoint " ++ "/no-such-route" ++ " does not exist")]) :=
  notfound_404 _ _ _ (by decide) (by decide) (by decide) (by decide)
    (by decide) (by decide) (by decide) (by decide)

/-- Claim C5 counterexample: the health endpoints are registered for GET
only, so a POST to `/health` falls through to the catch-all handler and
yields 404, not the promised 200. -/
theorem health_anymethod_counterexample :
    (handle ⟨none, none⟩ ⟨2025, 1, 1, 0, 0, 0, 0⟩
        ⟨"POST", "/health", none, none, 0⟩).handled =
      .response 404 (.jsonBody
        [("error", "Route not found"),
         ("message", "The endpoint /health does not exist")]) := by
  rfl

/-- Claim C5 (amended): for all GET requests to `/health` and
`/api/health` (whose body the parsers accept), the response status is
200 and the body contains key status with value "OK" and a parseable
ISO-8601 timestamp; other methods fall through to the 404 handler. -/
theorem health_both_get_ok (cfg : Config) (now : DateTime) (req : Request)
    (hm : req.method = "GET")
    (hu : req.originalUrl = "/health" ∨ req.originalUrl = "/api/health")
    (hb : parserRejects req = false) :
    ∃ fields, (handle cfg now req).handled = .response 200 (.jsonBody fields) ∧
      fields.lookup "status" = some "OK" ∧
      ∃ ts, fields.lookup "timestamp" = some ts ∧ isISO8601 ts = true := by
  rcases hu with hu | hu
  · exact ⟨healthBody now, handle_health_handled cfg now req hm hu hb, rfl,
      toISOString now, rfl, isISO8601_toISOString now⟩
  · exact ⟨apiHealthBody now, handle_apiHealth_handled cfg now req hm hu hb, rfl,
      toISOString now, rfl, isISO8601_toISOString now⟩

/-- Witness for the amended C5 at a concrete request to `/api/health`. -/
theorem health_both_get_ok_witness :
    ∃ fields,
      (handle ⟨some "development", none⟩ ⟨2025, 6, 7, 8, 9, 10, 11⟩
          ⟨"GET", "/api/health", none, none, 0⟩).handled =
        .response 200 (.jsonBody fields) ∧
      fields.lookup "status" = some "OK" ∧
      ∃ ts, fields.lookup "timestamp" = some ts ∧ isISO8601 ts = true :=
  health_both_get_ok _ _ _ rfl (Or.inr rfl) (by decide)

/-- Claim C7: a GET request to `/ping` (whose body the parsers accept)
is answered with status 200 and the exact text body "pong". -/
theorem ping_pong (cfg : Config) (now : DateTime) (req : Request)
    (hm : req.method = "GET") (hu : req.originalUrl = "/ping")
    (hb : parserRejects req = false) :
    (handle cfg now req).handled = .response 200 (.textBody "pong") := by
  have hc0 : routeMatches "/health" req.originalUrl = false := by rw [hu]; decide
  have hc1 : routeMatches "/api/health" req.originalUrl = false := by rw [hu]; decide
  have hc : routeMatches "/ping" req.originalUrl = true := by rw [hu]; decide
  simp [handle, hb, routeDispatch, hm, hc0, hc1, hc]

/-- Witness for C7 at a concrete request. -/
theorem ping_pong_witness :
    (handle ⟨some "production", some "8080"⟩ ⟨2025, 1, 1, 0, 0, 0, 0⟩
        ⟨"GET", "/ping", none, none, 0⟩).handled =
      .response 200 (.textBody "pong") :=
  ping_pong _ _ _ rfl rfl (by decide)

/-- Claim C6: both body parsers are capped at 10 MB, and a request whose
body exceeds the limit of the parser consuming it is handed to the
terminal error-handling middleware — never delegated to a route module,
and still yielding a defined outcome (no crash). -/
theorem payload_limit (cfg : Config) (now : DateTime) (req : Request)
    (hb : parserRejects req = true) :
    jsonLimit = 10 * 1024 * 1024 ∧ urlencodedLimit = 10 * 1024 * 1024 ∧
    (handle cfg now req).handled = .errorHandled .payloadTooLarge :=
  ⟨rfl, rfl, by simp [handle, hb]⟩

/-- Witness for C6 at a concrete oversized JSON request. -/
theorem payload_limit_witness :
    jsonLimit = 10 * 1024 * 1024 ∧ urlencodedLimit = 10 * 1024 * 1024 ∧
    (handle ⟨none, none⟩ ⟨2025, 1, 1, 0, 0, 0, 0⟩
        ⟨"POST", "/api/invoices", none, some "application/json", 10485761⟩).handled =
      .errorHandled .payloadTooLarge :=
  payload_limit _ _ _ (by decide)

theorem registrationOrder_ok (e : Option String) : middlewareOrderOk e := by
  by_cases hp : e = some "production"
  · subst hp
    exact ⟨by decide, by decide, by decide, by decide, by decide, by decide, by decide,
      fun hc => absurd rfl hc⟩
  · have hl : registrationOrder e =
        ["helmet", "morgan", "cors", "devLogger", "jsonParser", "urlencodedParser",
         "healthRoute", "apiHealthRoute", "pingRoute", "authRoutes", "productRoutes",
         "invoiceRoutes", "shopRoutes", "notFoundHandler", "errorHandler"] := by
      simp [registrationOrder, hp]
    unfold middlewareOrderOk
    rw [hl]
    exact ⟨by decide, by decide, by decide, by decide, by decide, by decide, by decide,
      fun _ => ⟨by decide, by decide⟩⟩

/-- Claim C3: every response — success, 404, or error — carries the CORS
header reflecting the requesting origin, because the cors middleware is
registered before route dispatch, the 404 handler and the error handler;
the registration order is security headers, access log, CORS, (dev)
diagnostic log, body parsing, route dispatch, 404, error handler. -/
theorem cors_headers_always (cfg : Config) (now : DateTime) (req : Request) (o : String)
    (h : req.origin = some o) :
    ("Access-Control-Allow-Origin", o) ∈ (handle cfg now req).headers ∧
    middlewareOrderOk cfg.nodeEnv :=
  ⟨by simp [handle, corsHeaders, h], registrationOrder_ok cfg.nodeEnv⟩

/-- Witness for C3 at a concrete request carrying an Origin header. -/
theorem cors_headers_always_witness :
    ("Access-Control-Allow-Origin", "https://app.example.com") ∈
      (handle ⟨some "development", none⟩ ⟨2025, 1, 1, 0, 0, 0, 0⟩
        ⟨"GET", "/health", some "https://app.example.com", none, 0⟩).headers ∧
    middlewareOrderOk (some "development") :=
  cors_headers_always ⟨some "development", none⟩ ⟨2025, 1, 1, 0, 0, 0, 0⟩
    ⟨"GET", "/health", some "https://app.example.com", none, 0⟩
    "https://app.example.com" rfl

/-- Claim C4 counterexample: in the production helmet configuration the
style-source directive is not self-only — it also allows
`'unsafe-inline'` — so the claim that script, style, connect and default
sources all allow only `'self'` fails at the style directive. -/
theorem production_csp_counterexample :
    (helmetConfig (some "production")).contentSecurityPolicy.map CspDirectives.styleSrc =
      some ["\x27self\x27", "\x27unsafe-inline\x27"] ∧
    (helmetConfig (some "production")).contentSecurityPolicy.map CspDirectives.styleSrc ≠
      some ["\x27self\x27"] := by
  constructor
  · rfl
  · decide

/-- Claim C4 (amended): with NODE_ENV "production", the security-header
middleware gets a content-security-policy whose script, connect and
default source directives allow only `'self'`, whose style sources allow
`'self'` and `'unsafe-inline'`, whose image sources additionally allow
`data:` and `https:`, and cross-origin-embedder-policy is disabled. -/
theorem production_helmet_config :
    ∃ d, (helmetConfig (some "production")).contentSecurityPolicy = some d ∧
      d.scriptSrc = ["\x27self\x27"] ∧
      d.connectSrc = ["\x27self\x27"] ∧
      d.defaultSrc = ["\x27self\x27"] ∧
      d.styleSrc = ["\x27self\x27", "\x27unsafe-inline\x27"] ∧
      d.imgSrc = ["\x27self\x27", "data:", "https:"] ∧
      (helmetConfig (some "production")).crossOriginEmbedderPolicy = false :=
  ⟨_, rfl, rfl, rfl, rfl, rfl, rfl, rfl⟩

/-- Claim C8: the listening port comes from the PORT environment variable
interpreted as an integer, and when PORT is unset the server silently
defaults to port 5000. -/
theorem port_resolution :
    listenPort none = some 5000 ∧
    ∀ s n, s ≠ "" → strToNat s = some n → listenPort (some s) = some n := by
  refine ⟨rfl, ?_⟩
  intro s n hne hp
  simp [listenPort, jsPortValue, hne, hp]

/-- Witness for C8: a concrete numeric PORT value is used as the port. -/
theorem port_resolution_witness : listenPort (some "3000") = some 3000 :=
  port_resolution.2 "3000" 3000 (by decide) (by decide)

/-- Claim C9: the diagnostic per-request logger (method, path, origin) is
installed exactly when NODE_ENV is not "production", and its log line is
emitted for a request exactly in that case. -/
theorem dev_logger_iff (cfg : Config) (now : DateTime) (req : Request) :
    (devLoggerInstalled cfg.nodeEnv = true ↔ cfg.nodeEnv ≠ some "production") ∧
    (LogEntry.devDiag req.method req.originalUrl req.origin ∈ (handle cfg now req).log ↔
      cfg.nodeEnv ≠ some "production") := by
  constructor
  · simp [devLoggerInstalled]
  · by_cases hp : cfg.nodeEnv = some "production" <;> simp [handle, hp]

theorem length_toISOString (d : DateTime) : (toISOString d).length = 24 := rfl

theorem health_api_render_ne (t1 t2 : DateTime) :
    renderJsonObj (healthBody t1) ≠ renderJsonObj (apiHealthBody t2) := by
  intro h
  have hl := congrArg String.length h
  simp only [renderJsonObj, renderFields, renderField, healthBody, apiHealthBody,
    String.length_append, length_toISOString] at hl
  exact absurd hl (by decide)

/-- Claim C10: the two health endpoints agree in shape but not content —
`/health` answers with message "Billing Invoicer API is running" while
`/api/health` answers with "Billing Invoicer API (api path) is running",
so the two serialized bodies are never byte-for-byte equal, whatever the
two timestamps are. -/
theorem health_bodies_distinct (t1 t2 : DateTime) :
    (healthBody t1).lookup "message" = some "Billing Invoicer API is running" ∧
    (apiHealthBody t2).lookup "message" =
      some "Billing Invoicer API (api path) is running" ∧
    renderJsonObj (healthBody t1) ≠ renderJsonObj (apiHealthBody t2) :=
  ⟨rfl, rfl, health_api_render_ne t1 t2⟩

end BillingServer
